import Mathlib

/-!
Verification of the Gaussian-channel alerting core.

Shallow embedding of:
* `src/indicators/band_detector.py`   (stateful `BandCrossDetector`)
* `src/band_detector.py`              (stateless `BandDetector`)
* `src/indicators/gaussian_channel.py` (`GaussianChannel`: `__init__`,
  `_get_weights`, `_calculate_filter`, `calculate`)
* `src/gaussian_channel.py`           (`GaussianChannel._get_weights`,
  `_filter_function`)

Python floats are modelled as exact rationals (`ℚ`).  The coefficient
`alpha` of the recursive filter is computed in the source from
`cos`/`sqrt` (a transcendental expression in `period` and `poles`); it is
carried here as an explicit parameter, exactly as `_calculate_filter`
reads it from `self.alpha`.  No claim below depends on its numeric value.
-/

/- ===================================================================
   src/indicators/band_detector.py — BandCrossDetector
   =================================================================== -/

/-- The per-coin position relative to the bands, stored in
`state[symbol]['last_position']` as one of the strings
`'unknown' | 'inside' | 'above_upper' | 'below_lower'`. -/
inductive Position where
  | unknown
  | inside
  | above_upper
  | below_lower
deriving DecidableEq

/-- `state[symbol]` record created by `_get_coin_state` (lines 34-42). -/
structure CoinState where
  last_position : Position
  last_timestamp : Option ℤ
  alert_count : ℕ
deriving DecidableEq

/-- `alert['type']` values `'UPPER_BAND' | 'LOWER_BAND'`. -/
inductive BandType where
  | UPPER_BAND
  | LOWER_BAND
deriving DecidableEq

/-- `alert['cross_direction']` values. -/
inductive CrossDir where
  | FROM_ABOVE
  | FROM_BELOW
deriving DecidableEq

/-- `alert['direction']` values. -/
inductive TradeDir where
  | BULLISH
  | BEARISH
deriving DecidableEq

/-- The alert dict built inside `detect_30m_cross`. -/
structure Alert where
  symbol : String
  type : BandType
  cross_direction : CrossDir
  cross_method : String
  timestamp : ℤ
  open_price : ℚ
  high_price : ℚ
  low_price : ℚ
  close_price : ℚ
  upper_band : ℚ
  lower_band : ℚ
  direction : TradeDir
  description : String
deriving DecidableEq

/-- `_get_coin_state` (lines 34-42): look up the symbol's record, creating
`{'last_position': 'unknown', 'last_timestamp': None, 'alert_count': 0}`
on first observation.  The per-symbol entry (present or absent) is
modelled as an `Option CoinState`. -/
def _get_coin_state (st : Option CoinState) : CoinState :=
  match st with
  | some s => s
  | none => { last_position := Position.unknown, last_timestamp := none, alert_count := 0 }

/-- Body classification, lines 75-88 of `detect_30m_cross`:
`body_high = max(open, close)`, `body_low = min(open, close)`;
`body_low > upper_band ⇒ above_upper`; `body_high < lower_band ⇒
below_lower`; otherwise `inside`. -/
def bodyPosition (open_price close_price upper_band lower_band : ℚ) : Position :=
  let body_high := max open_price close_price
  let body_low := min open_price close_price
  if body_low > upper_band then Position.above_upper
  else if body_high < lower_band then Position.below_lower
  else Position.inside

/-- `detect_30m_cross` (lines 44-185).  Returns the alert (or `none`) and
the per-symbol state as written back by `_save_state`; the state is
rewritten on every call (lines 173-183), whether or not an alert fired. -/
def detect_30m_cross (st : Option CoinState) (symbol : String)
    (open_price close_price high_price low_price upper_band lower_band : ℚ)
    (timestamp : ℤ) : Option Alert × CoinState :=
  let coin_state := _get_coin_state st
  let current_position := bodyPosition open_price close_price upper_band lower_band
  let last_position := coin_state.last_position
  let alert : Option Alert :=
    if last_position ≠ current_position ∧ last_position ≠ Position.unknown then
      if last_position = Position.above_upper ∧ current_position = Position.inside then
        some { symbol := symbol, type := BandType.UPPER_BAND,
               cross_direction := CrossDir.FROM_ABOVE, cross_method := "BODY",
               timestamp := timestamp, open_price := open_price,
               high_price := high_price, low_price := low_price,
               close_price := close_price, upper_band := upper_band,
               lower_band := lower_band, direction := TradeDir.BEARISH,
               description := "Body crossed Upper Band from above (entering channel)" }
      else if last_position = Position.inside ∧ current_position = Position.above_upper then
        some { symbol := symbol, type := BandType.UPPER_BAND,
               cross_direction := CrossDir.FROM_BELOW, cross_method := "BODY",
               timestamp := timestamp, open_price := open_price,
               high_price := high_price, low_price := low_price,
               close_price := close_price, upper_band := upper_band,
               lower_band := lower_band, direction := TradeDir.BULLISH,
               description := "Body crossed Upper Band from below (exiting channel upward)" }
      else if last_position = Position.inside ∧ current_position = Position.below_lower then
        some { symbol := symbol, type := BandType.LOWER_BAND,
               cross_direction := CrossDir.FROM_ABOVE, cross_method := "BODY",
               timestamp := timestamp, open_price := open_price,
               high_price := high_price, low_price := low_price,
               close_price := close_price, upper_band := upper_band,
               lower_band := lower_band, direction := TradeDir.BEARISH,
               description := "Body crossed Lower Band from above (exiting channel downward)" }
      else if last_position = Position.below_lower ∧ current_position = Position.inside then
        some { symbol := symbol, type := BandType.LOWER_BAND,
               cross_direction := CrossDir.FROM_BELOW, cross_method := "BODY",
               timestamp := timestamp, open_price := open_price,
               high_price := high_price, low_price := low_price,
               close_price := close_price, upper_band := upper_band,
               lower_band := lower_band, direction := TradeDir.BULLISH,
               description := "Body crossed Lower Band from below (entering channel)" }
      else none
    else none
  let new_state : CoinState :=
    { last_position := current_position,
      last_timestamp := some timestamp,
      alert_count := coin_state.alert_count + (if alert.isSome then 1 else 0) }
  (alert, new_state)

/-- One candle-plus-channel input to `detect_30m_cross`. -/
structure CallInput where
  open_price : ℚ
  close_price : ℚ
  high_price : ℚ
  low_price : ℚ
  upper_band : ℚ
  lower_band : ℚ
  timestamp : ℤ
deriving DecidableEq

/-- Run a sequence of `detect_30m_cross` calls for one symbol, collecting
the fired alerts in order. -/
def runCalls (symbol : String) (st : Option CoinState) :
    List CallInput → List Alert × Option CoinState
  | [] => ([], st)
  | c :: cs =>
    let r := detect_30m_cross st symbol c.open_price c.close_price c.high_price
      c.low_price c.upper_band c.lower_band c.timestamp
    let rest := runCalls symbol (some r.2) cs
    ((match r.1 with | some a => a :: rest.1 | none => rest.1), rest.2)

/-- Band fired by one `detect_30m_cross` transition, read off the four
alert-building branches (lines 100-171): the band is the one whose region
was entered or exited; direct `above_upper ↔ below_lower` jumps and the
seeding call fire nothing. -/
def firedBand : Position → Position → Option BandType
  | Position.above_upper, Position.inside => some BandType.UPPER_BAND
  | Position.inside, Position.above_upper => some BandType.UPPER_BAND
  | Position.inside, Position.below_lower => some BandType.LOWER_BAND
  | Position.below_lower, Position.inside => some BandType.LOWER_BAND
  | _, _ => none

/- ===================================================================
   src/band_detector.py — stateless BandDetector
   =================================================================== -/

/-- `CrossType` enum of `src/band_detector.py` (lines 11-16). -/
inductive CrossType where
  | UPPER_BAND
  | LOWER_BAND
  | FILTER_LINE
  | NONE
deriving DecidableEq

/-- One dataframe row as consumed by `BandDetector.detect_cross`. -/
structure Row where
  timestamp : ℤ
  open_price : ℚ
  high_price : ℚ
  low_price : ℚ
  close_price : ℚ
  filter : ℚ
  upper_band : ℚ
  lower_band : ℚ
deriving DecidableEq

/-- One cross-event dict from `detect_cross`.  The level recorded under
the key `upper_band` / `lower_band` / `filter` of the Python dict is the
single field `value`. -/
structure Cross where
  type : CrossType
  timestamp : ℤ
  close_price : ℚ
  value : ℚ
  direction : String
deriving DecidableEq

/-- `BandDetector.__init__` stores only `analysis_type` (lines 27-32). -/
structure BandDetector where
  analysis_type : String
deriving DecidableEq

/-- `_is_crossing_upper` (lines 103-114). -/
def _is_crossing_upper (candle_high candle_low upper_band
    prev_high prev_low prev_upper : ℚ) : Bool :=
  (candle_high ≥ upper_band) && (prev_high < prev_upper)

/-- `_is_crossing_lower` (lines 116-127). -/
def _is_crossing_lower (candle_high candle_low lower_band
    prev_high prev_low prev_lower : ℚ) : Bool :=
  (candle_low ≤ lower_band) && (prev_low > prev_lower)

/-- `_is_crossing_filter` (lines 129-142). -/
def _is_crossing_filter (candle_high candle_low filter_line
    prev_high prev_low prev_filter : ℚ) : Bool :=
  ((candle_low > filter_line) && (prev_high < prev_filter)) ||
  ((candle_high < filter_line) && (prev_low > prev_filter))

/-- `BandDetector.detect_cross` (lines 34-101).  `df.iloc[-1]` and
`df.iloc[-2]` are the last two rows of the dataframe. -/
def detect_cross (d : BandDetector) (df : List Row) (check_filter : Bool) : List Cross :=
  if df.length < 2 then []
  else
    match df.reverse with
    | current :: previous :: _ =>
      let candle_high := max current.open_price current.close_price
      let candle_low := min current.open_price current.close_price
      let prev_candle_high := max previous.open_price previous.close_price
      let prev_candle_low := min previous.open_price previous.close_price
      let upper_crosses : List Cross :=
        if _is_crossing_upper candle_high candle_low current.upper_band
            prev_candle_high prev_candle_low previous.upper_band then
          [{ type := CrossType.UPPER_BAND, timestamp := current.timestamp,
             close_price := current.close_price, value := current.upper_band,
             direction := if current.close_price > current.upper_band then "above" else "touch" }]
        else []
      let lower_crosses : List Cross :=
        if _is_crossing_lower candle_high candle_low current.lower_band
            prev_candle_high prev_candle_low previous.lower_band then
          [{ type := CrossType.LOWER_BAND, timestamp := current.timestamp,
             close_price := current.close_price, value := current.lower_band,
             direction := if current.close_price < current.lower_band then "below" else "touch" }]
        else []
      let filter_crosses : List Cross :=
        if check_filter ∧ d.analysis_type = "4h" ∧
            _is_crossing_filter candle_high candle_low current.filter
              prev_candle_high prev_candle_low previous.filter then
          [{ type := CrossType.FILTER_LINE, timestamp := current.timestamp,
             close_price := current.close_price, value := current.filter,
             direction := if current.close_price > current.filter then "above" else "below" }]
        else []
      upper_crosses ++ lower_crosses ++ filter_crosses
    | _ => []

/- ===================================================================
   src/indicators/gaussian_channel.py — GaussianChannel
   =================================================================== -/

/-- The configuration a `GaussianChannel.__init__` call produces.  The
source also computes `beta` and `alpha` from `period` and `poles` through
`cos` and `sqrt` (line 31-32), a transcendental quantity; it is carried
here as the abstract field `alpha`, exactly as the filter reads
`self.alpha`.  No claim depends on its numeric value. -/
structure GaussianChannel where
  poles : ℕ
  period : ℕ
  multiplier : ℚ
  reduced_lag : Bool
  fast_response : Bool
  alpha : ℚ
  lag : ℕ
deriving DecidableEq

/-- `GaussianChannel.__init__` (lines 12-35): the requested pole count is
clamped by `max(1, min(9, poles))`, the period by `max(2, period)`
(lines 24-25); `lag = int((period - 1) / (2 * poles))` (line 35), which
on the clamped positive values is truncating division. -/
def mkGaussianChannel (poles period : ℤ) (multiplier : ℚ)
    (reduced_lag fast_response : Bool) (alpha : ℚ) : GaussianChannel :=
  let p : ℕ := (max 1 (min 9 poles)).toNat
  let t : ℕ := (max 2 period).toNat
  { poles := p, period := t, multiplier := multiplier,
    reduced_lag := reduced_lag, fast_response := fast_response,
    alpha := alpha, lag := (t - 1) / (2 * p) }

/-- `m2_map` of `_get_weights` (line 43). -/
def m2_map (p : ℕ) : ℕ :=
  match p with
  | 9 => 36 | 8 => 28 | 7 => 21 | 6 => 15 | 5 => 10 | 4 => 6 | 3 => 3 | 2 => 1
  | _ => 0

/-- `m3_map` of `_get_weights` (line 50). -/
def m3_map (p : ℕ) : ℕ :=
  match p with
  | 9 => 84 | 8 => 56 | 7 => 35 | 6 => 20 | 5 => 10 | 4 => 4 | 3 => 1
  | _ => 0

/-- `m4_map` of `_get_weights` (line 57). -/
def m4_map (p : ℕ) : ℕ :=
  match p with
  | 9 => 126 | 8 => 70 | 7 => 35 | 6 => 15 | 5 => 5 | 4 => 1
  | _ => 0

/-- `m5_map` of `_get_weights` (line 64). -/
def m5_map (p : ℕ) : ℕ :=
  match p with
  | 9 => 126 | 8 => 56 | 7 => 21 | 6 => 6 | 5 => 1
  | _ => 0

/-- `m6_map` of `_get_weights` (line 71). -/
def m6_map (p : ℕ) : ℕ :=
  match p with
  | 9 => 84 | 8 => 28 | 7 => 7 | 6 => 1
  | _ => 0

/-- `m7_map` of `_get_weights` (line 78). -/
def m7_map (p : ℕ) : ℕ :=
  match p with
  | 9 => 36 | 8 => 8 | 7 => 1
  | _ => 0

/-- `m8_map` of `_get_weights` (line 85). -/
def m8_map (p : ℕ) : ℕ :=
  match p with
  | 9 => 9 | 8 => 1
  | _ => 0

/-- `GaussianChannel._get_weights` of `src/indicators/gaussian_channel.py`
(lines 37-96): `[m1, ..., m9]` with `m1 = poles` and each later entry
guarded by `poles >= k`. -/
def getWeights (poles : ℕ) : List ℕ :=
  [poles,
   if 2 ≤ poles then m2_map poles else 0,
   if 3 ≤ poles then m3_map poles else 0,
   if 4 ≤ poles then m4_map poles else 0,
   if 5 ≤ poles then m5_map poles else 0,
   if 6 ≤ poles then m6_map poles else 0,
   if 7 ≤ poles then m7_map poles else 0,
   if 8 ≤ poles then m8_map poles else 0,
   if 9 ≤ poles then 1 else 0]

/-- `GaussianChannel._calculate_filter` of
`src/indicators/gaussian_channel.py` (lines 98-137): outputs at indices
`i < 10` are pass-through copies of the input (line 111-112); from index
10 on, the 9-term Pine-Script recurrence with the `_get_weights`
coefficients. -/
def calcFilter (alpha : ℚ) (poles : ℕ) (source : ℕ → ℚ) (i : ℕ) : ℚ :=
  if _h : i < 10 then source i
  else
    let x : ℚ := 1 - alpha
    let w := getWeights poles
    alpha ^ poles * source i
    + (w.getD 0 0 : ℚ) * x * calcFilter alpha poles source (i - 1)
    - (if 2 ≤ poles then (w.getD 1 0 : ℚ) * x ^ 2 * calcFilter alpha poles source (i - 2) else 0)
    + (if 3 ≤ poles then (w.getD 2 0 : ℚ) * x ^ 3 * calcFilter alpha poles source (i - 3) else 0)
    - (if 4 ≤ poles then (w.getD 3 0 : ℚ) * x ^ 4 * calcFilter alpha poles source (i - 4) else 0)
    + (if 5 ≤ poles then (w.getD 4 0 : ℚ) * x ^ 5 * calcFilter alpha poles source (i - 5) else 0)
    - (if 6 ≤ poles then (w.getD 5 0 : ℚ) * x ^ 6 * calcFilter alpha poles source (i - 6) else 0)
    + (if 7 ≤ poles then (w.getD 6 0 : ℚ) * x ^ 7 * calcFilter alpha poles source (i - 7) else 0)
    - (if 8 ≤ poles then (w.getD 7 0 : ℚ) * x ^ 8 * calcFilter alpha poles source (i - 8) else 0)
    + (if 9 ≤ poles then (w.getD 8 0 : ℚ) * x ^ 9 * calcFilter alpha poles source (i - 9) else 0)
termination_by i
decreasing_by all_goals omega

/- ===================================================================
   src/gaussian_channel.py — the root GaussianChannel variant
   =================================================================== -/

/-- `GaussianChannel._get_weights` of `src/gaussian_channel.py`
(lines 42-55): the dict of 9-entry weight lists, default all-zero. -/
def getWeightsR (poles : ℕ) : List ℕ :=
  match poles with
  | 1 => [0, 0, 0, 0, 0, 0, 0, 0, 0]
  | 2 => [1, 0, 0, 0, 0, 0, 0, 0, 0]
  | 3 => [3, 1, 0, 0, 0, 0, 0, 0, 0]
  | 4 => [6, 4, 1, 0, 0, 0, 0, 0, 0]
  | 5 => [10, 10, 5, 1, 0, 0, 0, 0, 0]
  | 6 => [15, 20, 15, 6, 1, 0, 0, 0, 0]
  | 7 => [21, 35, 35, 21, 7, 1, 0, 0, 0]
  | 8 => [28, 56, 70, 56, 28, 8, 1, 0, 0]
  | 9 => [36, 84, 126, 126, 84, 36, 9, 1, 0]
  | _ => [0, 0, 0, 0, 0, 0, 0, 0, 0]

/-- `GaussianChannel._filter_function` of `src/gaussian_channel.py`
(lines 57-93): `result[0] = alpha^poles * source[0]`; for `i ≥ 1` the
`k`-lag feedback term is added only when both `poles ≥ k` and `i ≥ k`
(the final term requires `poles == 9`). -/
def filterFunction (alpha : ℚ) (poles : ℕ) (source : ℕ → ℚ) (i : ℕ) : ℚ :=
  if _h : i = 0 then alpha ^ poles * source 0
  else
    let x : ℚ := 1 - alpha
    let w := getWeightsR poles
    alpha ^ poles * source i
    + (poles : ℚ) * x * filterFunction alpha poles source (i - 1)
    - (if 2 ≤ poles ∧ 2 ≤ i then (w.getD 0 0 : ℚ) * x ^ 2 * filterFunction alpha poles source (i - 2) else 0)
    + (if 3 ≤ poles ∧ 3 ≤ i then (w.getD 1 0 : ℚ) * x ^ 3 * filterFunction alpha poles source (i - 3) else 0)
    - (if 4 ≤ poles ∧ 4 ≤ i then (w.getD 2 0 : ℚ) * x ^ 4 * filterFunction alpha poles source (i - 4) else 0)
    + (if 5 ≤ poles ∧ 5 ≤ i then (w.getD 3 0 : ℚ) * x ^ 5 * filterFunction alpha poles source (i - 5) else 0)
    - (if 6 ≤ poles ∧ 6 ≤ i then (w.getD 4 0 : ℚ) * x ^ 6 * filterFunction alpha poles source (i - 6) else 0)
    + (if 7 ≤ poles ∧ 7 ≤ i then (w.getD 5 0 : ℚ) * x ^ 7 * filterFunction alpha poles source (i - 7) else 0)
    - (if 8 ≤ poles ∧ 8 ≤ i then (w.getD 6 0 : ℚ) * x ^ 8 * filterFunction alpha poles source (i - 8) else 0)
    + (if poles = 9 ∧ 9 ≤ i then (w.getD 7 0 : ℚ) * x ^ 9 * filterFunction alpha poles source (i - 9) else 0)
termination_by i
decreasing_by all_goals omega

/- ===================================================================
   The recurrence of the specification (§4.1) and the direct
   single-pole computation (§8), as stated there
   =================================================================== -/

/-- The `k`-th feedback term of the spec recurrence (§4.1):
`(−1)^(k+1) · C(p,k) · (1−α)^k · y[i−k]`. -/
def gcRecTerm (alpha : ℚ) (p : ℕ) (y : ℕ → ℚ) (i k : ℕ) : ℚ :=
  (-1 : ℚ) ^ (k + 1) * (p.choose k : ℚ) * (1 - alpha) ^ k * y (i - k)

/-- Right-hand side of the spec recurrence (§4.1):
`α^p·x[i] + Σ_{k=1}^{p} (−1)^(k+1)·C(p,k)·(1−α)^k·y[i−k]`, with the
terms whose index `i−k` would be negative omitted. -/
def gcRecRhs (alpha : ℚ) (p : ℕ) (x y : ℕ → ℚ) (i : ℕ) : ℚ :=
  alpha ^ p * x i +
    ∑ k in Finset.Icc 1 p, if k ≤ i then gcRecTerm alpha p y i k else 0

/-- An output sequence `y` satisfies the spec recurrence for input `x` at
every index. -/
def SatisfiesGCRec (alpha : ℚ) (p : ℕ) (x y : ℕ → ℚ) : Prop :=
  ∀ i, y i = gcRecRhs alpha p x y i

/-- The direct single-pole computation of §8:
`y[i] = α·x[i] + (1−α)·y[i−1]`, with `y[−1]` treated as absent at
index 0. -/
def singlePole (alpha : ℚ) (x : ℕ → ℚ) : ℕ → ℚ
  | 0 => alpha * x 0
  | (i + 1) => alpha * x (i + 1) + (1 - alpha) * singlePole alpha x i

/- ===================================================================
   src/indicators/gaussian_channel.py — GaussianChannel.calculate
   =================================================================== -/

/-- HLC3 source (line 152). -/
def hlc3 (high low close : ℕ → ℚ) : ℕ → ℚ :=
  fun i => (high i + low i + close i) / 3

/-- True range (lines 155-163): `tr[0] = high[0] - low[0]`; later
`tr[i] = max(high[i]-low[i], |high[i]-close[i-1]|, |low[i]-close[i-1]|)`. -/
def trueRange (high low close : ℕ → ℚ) : ℕ → ℚ
  | 0 => high 0 - low 0
  | (i + 1) => max (high (i + 1) - low (i + 1))
      (max |high (i + 1) - close i| |low (i + 1) - close i|)

/-- The lag-reduction transform (lines 169-171), applied to indices
`i ≥ lag`: `z[i] + (z[i] - z[i-lag])`, reading the untransformed series. -/
def lagReduce (lag : ℕ) (z : ℕ → ℚ) : ℕ → ℚ :=
  fun i => if lag ≤ i then z i + (z i - z (i - lag)) else z i

/-- The price-source series fed to the filter (`srcdata`, lines 166-174);
`n` is the length of the candle arrays, governing the `n > self.lag`
guard. -/
def srcdata (gc : GaussianChannel) (n : ℕ) (high low close : ℕ → ℚ) : ℕ → ℚ :=
  if gc.reduced_lag ∧ gc.lag < n then lagReduce gc.lag (hlc3 high low close)
  else hlc3 high low close

/-- The true-range series fed to the filter (`trdata`, lines 166-174). -/
def trdata (gc : GaussianChannel) (n : ℕ) (high low close : ℕ → ℚ) : ℕ → ℚ :=
  if gc.reduced_lag ∧ gc.lag < n then lagReduce gc.lag (trueRange high low close)
  else trueRange high low close

/-- The channel centerline `filt` of `calculate` (lines 177-190): the
`poles`-pole filter of `srcdata`, averaged with the 1-pole filter in
fast-response mode. -/
def channelFilt (gc : GaussianChannel) (n : ℕ) (high low close : ℕ → ℚ) : ℕ → ℚ :=
  fun i =>
    if gc.fast_response then
      (calcFilter gc.alpha gc.poles (srcdata gc n high low close) i
        + calcFilter gc.alpha 1 (srcdata gc n high low close) i) / 2
    else calcFilter gc.alpha gc.poles (srcdata gc n high low close) i

/-- The filtered true range `filttr` of `calculate` (lines 178-190). -/
def channelFiltTr (gc : GaussianChannel) (n : ℕ) (high low close : ℕ → ℚ) : ℕ → ℚ :=
  fun i =>
    if gc.fast_response then
      (calcFilter gc.alpha gc.poles (trdata gc n high low close) i
        + calcFilter gc.alpha 1 (trdata gc n high low close) i) / 2
    else calcFilter gc.alpha gc.poles (trdata gc n high low close) i

/-- `upper_band = filt + filttr * multiplier` (line 193). -/
def channelUpper (gc : GaussianChannel) (n : ℕ) (high low close : ℕ → ℚ) : ℕ → ℚ :=
  fun i => channelFilt gc n high low close i
    + channelFiltTr gc n high low close i * gc.multiplier

/-- `lower_band = filt - filttr * multiplier` (line 194). -/
def channelLower (gc : GaussianChannel) (n : ℕ) (high low close : ℕ → ℚ) : ℕ → ℚ :=
  fun i => channelFilt gc n high low close i
    - channelFiltTr gc n high low close i * gc.multiplier

/- ===================================================================
   Concrete example inputs
   =================================================================== -/

/-- A three-call sequence for one symbol: body inside the channel, then
entirely above the upper band, then back inside. -/
def exampleCalls : List CallInput :=
  [⟨5, 5, 6, 4, 10, 1, 1⟩, ⟨20, 20, 21, 19, 10, 1, 2⟩, ⟨5, 5, 6, 4, 10, 1, 3⟩]

/-- The unit impulse at index 1. -/
def impulse1 : ℕ → ℚ := fun n => if n = 1 then 1 else 0

/-- Example channel configuration: 2 poles, period 144, multiplier 1.414,
both modes off, filter coefficient `alpha = 1/2`. -/
def exampleGC : GaussianChannel :=
  mkGaussianChannel 2 144 (1414 / 1000) false false (1 / 2)

/-- Example high series: constant 10 except a range spike at index 8. -/
def exampleHigh : ℕ → ℚ := fun i => if i = 8 then 11 else 10

/-- Example low series: constant 10 except a range spike at index 8. -/
def exampleLow : ℕ → ℚ := fun i => if i = 8 then 9 else 10

/-- Example close series: constant 10. -/
def exampleClose : ℕ → ℚ := fun _ => 10

/- ===================================================================
   Theorems
   =================================================================== -/

/-- Claim C6: for a symbol with no prior state, the first
`detect_30m_cross` call returns no alert regardless of the candle's
classification (even `above_upper`), and the stored last classification
afterwards equals that first classification. -/
theorem C6_first_call_seeds_never_fires (symbol : String)
    (open_price close_price high_price low_price upper_band lower_band : ℚ)
    (timestamp : ℤ) :
    (detect_30m_cross none symbol open_price close_price high_price low_price
      upper_band lower_band timestamp).1 = none ∧
    (detect_30m_cross none symbol open_price close_price high_price low_price
      upper_band lower_band timestamp).2.last_position =
      bodyPosition open_price close_price upper_band lower_band := by
  constructor <;> simp [detect_30m_cross, _get_coin_state]

/-- Claim C9: when the stored position jumps directly from `above_upper`
to `below_lower` or from `below_lower` to `above_upper` with no
intermediate `inside` classification, no alert fires even though the
position changed, and the stored position is still updated to the new
classification (the timestamp is also rewritten; the alert count is
unchanged). -/
theorem C9_direct_jump_no_alert (st : CoinState) (symbol : String)
    (o c h l ub lb : ℚ) (ts : ℤ) :
    (st.last_position = Position.above_upper →
      bodyPosition o c ub lb = Position.below_lower →
      detect_30m_cross (some st) symbol o c h l ub lb ts =
        (none, ⟨Position.below_lower, some ts, st.alert_count⟩)) ∧
    (st.last_position = Position.below_lower →
      bodyPosition o c ub lb = Position.above_upper →
      detect_30m_cross (some st) symbol o c h l ub lb ts =
        (none, ⟨Position.above_upper, some ts, st.alert_count⟩)) := by
  constructor <;> intro h1 h2 <;>
    simp [detect_30m_cross, _get_coin_state, h1, h2]

/-- Witness for C9: a concrete jump from `above_upper` straight to
`below_lower` returns no alert and updates the stored position. -/
theorem C9_witness :
    detect_30m_cross (some ⟨Position.above_upper, some 0, 2⟩) "BTC" 1 1 2 1 10 5 9 =
      (none, ⟨Position.below_lower, some 9, 2⟩) :=
  (C9_direct_jump_no_alert ⟨Position.above_upper, some 0, 2⟩ "BTC" 1 1 2 1 10 5 9).1
    (by rfl) (by decide)

/-- Claim C5: replaying the identical `(symbol, candle, channel_point)`
call immediately after a call that fired an alert returns no new alert
and leaves the stored per-symbol state unchanged. -/
theorem C5_replay_idempotent (st : Option CoinState) (symbol : String)
    (o c h l ub lb : ℚ) (ts : ℤ) (a : Alert) (st1 : CoinState)
    (hfired : detect_30m_cross st symbol o c h l ub lb ts = (some a, st1)) :
    detect_30m_cross (some st1) symbol o c h l ub lb ts = (none, st1) := by
  have hsnd := congrArg Prod.snd hfired
  simp only [detect_30m_cross] at hsnd
  subst hsnd
  simp [detect_30m_cross, _get_coin_state]

/-- Witness for C5: a concrete `inside → above_upper` call fires, and the
identical replay returns no alert with the state unchanged. -/
theorem C5_witness :
    detect_30m_cross (some ⟨Position.above_upper, some 1, 1⟩) "BTC" 20 20 21 19 10 1 1 =
      (none, ⟨Position.above_upper, some 1, 1⟩) :=
  C5_replay_idempotent (some ⟨Position.inside, some 0, 0⟩) "BTC" 20 20 21 19 10 1 1
    { symbol := "BTC", type := BandType.UPPER_BAND,
      cross_direction := CrossDir.FROM_BELOW, cross_method := "BODY",
      timestamp := 1, open_price := 20, high_price := 21, low_price := 19,
      close_price := 20, upper_band := 10, lower_band := 1,
      direction := TradeDir.BULLISH,
      description := "Body crossed Upper Band from below (exiting channel upward)" }
    ⟨Position.above_upper, some 1, 1⟩ (by decide)

/-- Counterexample to claim C3 as stated: entering the upper region and
then leaving it back inside fires two consecutive BODY alerts that are
both for the UPPER band, so fired bands do not strictly alternate, and
leaving `above_upper` back to `inside` does fire UPPER again. -/
theorem C3_counterexample :
    ((runCalls "BTC" none exampleCalls).1.map Alert.type =
      [BandType.UPPER_BAND, BandType.UPPER_BAND]) ∧
    ((runCalls "BTC" none exampleCalls).1.map Alert.cross_method =
      ["BODY", "BODY"]) := by
  decide

/-- Claim C3 as amended: the fired alerts do not alternate by band;
instead, each `detect_30m_cross` call fires exactly when the stored
position and the new classification form one of the four
`inside ↔ above_upper` / `inside ↔ below_lower` transitions, the band of
the alert being the band whose region was entered or exited (UPPER for
both directions of the upper transition, LOWER for both directions of
the lower one); every fired alert has method BODY. -/
theorem C3_amended_band_per_transition (st : CoinState) (symbol : String)
    (o c h l ub lb : ℚ) (ts : ℤ) :
    ((detect_30m_cross (some st) symbol o c h l ub lb ts).1.map Alert.type =
      firedBand st.last_position (bodyPosition o c ub lb)) ∧
    (∀ a ∈ (detect_30m_cross (some st) symbol o c h l ub lb ts).1,
      a.cross_method = "BODY") := by
  cases hcur : bodyPosition o c ub lb <;> cases hlast : st.last_position <;>
    simp [detect_30m_cross, _get_coin_state, firedBand, hcur, hlast]

/-- Counterexample to claim C4 as stated: a malformed candle with
`low = 5 > 3 = high` is not rejected — the call completes normally,
even fires an alert, and mutates the stored state. -/
theorem C4_counterexample :
    (detect_30m_cross (some ⟨Position.above_upper, some 0, 0⟩) "X" 5 5 3 5 10 1 7).1.isSome
      = true ∧
    (detect_30m_cross (some ⟨Position.above_upper, some 0, 0⟩) "X" 5 5 3 5 10 1 7).2 ≠
      ⟨Position.above_upper, some 0, 0⟩ := by
  decide

/-- Claim C4 as amended: `detect_30m_cross` performs no validation at
all.  A call whose candle is malformed (`low > high`) is processed like
any other: the classification uses only open/close against the bands,
the stored position and timestamp are rewritten, and no error path
exists. -/
theorem C4_amended_no_validation (st : CoinState) (symbol : String)
    (o c h l ub lb : ℚ) (ts : ℤ) (hmalformed : h < l) :
    (detect_30m_cross (some st) symbol o c h l ub lb ts).2.last_position =
      bodyPosition o c ub lb ∧
    (detect_30m_cross (some st) symbol o c h l ub lb ts).2.last_timestamp =
      some ts := by
  constructor <;> simp [detect_30m_cross, _get_coin_state]

/-- Witness for C4 (amended): a concrete malformed candle (`high = 3`,
`low = 5`) is classified and the state rewritten as for any call. -/
theorem C4_witness :
    (detect_30m_cross (some ⟨Position.above_upper, some 0, 0⟩) "X" 5 5 3 5 10 1 7).2.last_position
        = bodyPosition 5 5 10 1 ∧
    (detect_30m_cross (some ⟨Position.above_upper, some 0, 0⟩) "X" 5 5 3 5 10 1 7).2.last_timestamp
        = some 7 :=
  C4_amended_no_validation ⟨Position.above_upper, some 0, 0⟩ "X" 5 5 3 5 10 1 7
    (by decide)

/-- Claim C10: the stateless `detect_cross` returns an empty list of
cross events whenever the dataframe has fewer than two rows. -/
theorem C10_short_dataframe_empty (d : BandDetector) (df : List Row)
    (check_filter : Bool) (hlen : df.length < 2) :
    detect_cross d df check_filter = [] := by
  simp [detect_cross, hlen]

/-- Witness for C10: a concrete single-row dataframe yields no cross
events. -/
theorem C10_witness :
    detect_cross ⟨"30m"⟩ [⟨0, 1, 2, 0, 1, 1, 2, 0⟩] false = [] :=
  C10_short_dataframe_empty ⟨"30m"⟩ [⟨0, 1, 2, 0, 1, 1, 2, 0⟩] false (by decide)

/-- Counterexample to claim C1 as stated: `__init__` silently clamps —
requested pole count 11 yields a working channel with 9 poles, and a
requested period 0 yields period 2; nothing fails. -/
theorem C1_counterexample :
    (mkGaussianChannel 11 144 (1414 / 1000) false false (1 / 2)).poles = 9 ∧
    (mkGaussianChannel 5 0 (1414 / 1000) false false (1 / 2)).period = 2 := by
  decide

/-- Claim C1 as amended: construction never fails; a requested pole
count outside `[1,9]` or period below 2 is silently clamped into range
by `max(1, min(9, poles))` and `max(2, period)`, while in-range requests
are kept unchanged. -/
theorem C1_amended_silent_clamp (poles period : ℤ) (multiplier : ℚ)
    (rl fr : Bool) (alpha : ℚ) :
    (1 ≤ (mkGaussianChannel poles period multiplier rl fr alpha).poles ∧
     (mkGaussianChannel poles period multiplier rl fr alpha).poles ≤ 9 ∧
     2 ≤ (mkGaussianChannel poles period multiplier rl fr alpha).period) ∧
    (1 ≤ poles → poles ≤ 9 →
      ((mkGaussianChannel poles period multiplier rl fr alpha).poles : ℤ) = poles) ∧
    (2 ≤ period →
      ((mkGaussianChannel poles period multiplier rl fr alpha).period : ℤ) = period) := by
  refine ⟨⟨?_, ?_, ?_⟩, fun h1 h9 => ?_, fun h2 => ?_⟩ <;>
    simp [mkGaussianChannel] <;> omega

/-- Witness for C1 (amended): an in-range request (7 poles, period 50)
is kept unchanged. -/
theorem C1_witness :
    ((mkGaussianChannel 7 50 1 false false (1 / 2)).poles : ℤ) = 7 ∧
    ((mkGaussianChannel 7 50 1 false false (1 / 2)).period : ℤ) = 50 :=
  ⟨(C1_amended_silent_clamp 7 50 1 false false (1 / 2)).2.1 (by decide) (by decide),
   (C1_amended_silent_clamp 7 50 1 false false (1 / 2)).2.2 (by decide)⟩

/-- Sums over `Icc 1 p` re-indexed over `range p`. -/
lemma sum_Icc_one_eq_range (p : ℕ) (f : ℕ → ℚ) :
    ∑ k in Finset.Icc 1 p, f k = ∑ k in Finset.range p, f (k + 1) := by
  induction p with
  | zero => simp
  | succ n ih => rw [Finset.sum_Icc_succ_top (by omega), ih, Finset.sum_range_succ]

/-- The spec recurrence right-hand side, re-indexed over `range p`. -/
lemma gcRecRhs_eq_range (alpha : ℚ) (p : ℕ) (x y : ℕ → ℚ) (i : ℕ) :
    gcRecRhs alpha p x y i = alpha ^ p * x i +
      ∑ k in Finset.range p,
        if k + 1 ≤ i then gcRecTerm alpha p y i (k + 1) else 0 := by
  rw [gcRecRhs, sum_Icc_one_eq_range]

set_option maxHeartbeats 2000000 in
lemma filterFunction_satisfies (alpha : ℚ) (p : ℕ) (x : ℕ → ℚ)
    (hp1 : 1 ≤ p) (hp9 : p ≤ 9) :
    SatisfiesGCRec alpha p x (filterFunction alpha p x) := by
  intro i
  rw [gcRecRhs_eq_range, filterFunction.eq_def]
  interval_cases p
  · -- poles = 1
    rcases Nat.lt_or_ge i 1 with hi | hi
    · interval_cases i <;>
        simp [getWeightsR, gcRecTerm, Finset.sum_range_succ, Nat.choose] <;>
        try ring_nf <;> try tauto
    · have h0 : ¬ (i = 0) := by omega
      have h1 : 1 ≤ i := by omega
      simp [getWeightsR, gcRecTerm, Finset.sum_range_succ, Nat.choose, h0, h1]
      try ring
  · -- poles = 2
    rcases Nat.lt_or_ge i 2 with hi | hi
    · interval_cases i <;>
        simp [getWeightsR, gcRecTerm, Finset.sum_range_succ, Nat.choose] <;>
        try ring_nf <;> try tauto
    · have h0 : ¬ (i = 0) := by omega
      have h1 : 1 ≤ i := by omega
      have h2 : 2 ≤ i := by omega
      simp [getWeightsR, gcRecTerm, Finset.sum_range_succ, Nat.choose, h0, h1, h2]
      try ring
  · -- poles = 3
    rcases Nat.lt_or_ge i 3 with hi | hi
    · interval_cases i <;>
        simp [getWeightsR, gcRecTerm, Finset.sum_range_succ, Nat.choose] <;>
        try ring_nf <;> try tauto
    · have h0 : ¬ (i = 0) := by omega
      have h1 : 1 ≤ i := by omega
      have h2 : 2 ≤ i := by omega
      have h3 : 3 ≤ i := by omega
      simp [getWeightsR, gcRecTerm, Finset.sum_range_succ, Nat.choose, h0, h1, h2, h3]
      try ring
  · -- poles = 4
    rcases Nat.lt_or_ge i 4 with hi | hi
    · interval_cases i <;>
        simp [getWeightsR, gcRecTerm, Finset.sum_range_succ, Nat.choose] <;>
        try ring_nf <;> try tauto
    · have h0 : ¬ (i = 0) := by omega
      have h1 : 1 ≤ i := by omega
      have h2 : 2 ≤ i := by omega
      have h3 : 3 ≤ i := by omega
      have h4 : 4 ≤ i := by omega
      simp [getWeightsR, gcRecTerm, Finset.sum_range_succ, Nat.choose, h0, h1, h2, h3, h4]
      try ring
  · -- poles = 5
    rcases Nat.lt_or_ge i 5 with hi | hi
    · interval_cases i <;>
        simp [getWeightsR, gcRecTerm, Finset.sum_range_succ, Nat.choose] <;>
        try ring_nf <;> try tauto
    · have h0 : ¬ (i = 0) := by omega
      have h1 : 1 ≤ i := by omega
      have h2 : 2 ≤ i := by omega
      have h3 : 3 ≤ i := by omega
      have h4 : 4 ≤ i := by omega
      have h5 : 5 ≤ i := by omega
      simp [getWeightsR, gcRecTerm, Finset.sum_range_succ, Nat.choose, h0, h1, h2, h3, h4, h5]
      try ring
  · -- poles = 6
    rcases Nat.lt_or_ge i 6 with hi | hi
    · interval_cases i <;>
        simp [getWeightsR, gcRecTerm, Finset.sum_range_succ, Nat.choose] <;>
        try ring_nf <;> try tauto
    · have h0 : ¬ (i = 0) := by omega
      have h1 : 1 ≤ i := by omega
      have h2 : 2 ≤ i := by omega
      have h3 : 3 ≤ i := by omega
      have h4 : 4 ≤ i := by omega
      have h5 : 5 ≤ i := by omega
      have h6 : 6 ≤ i := by omega
      simp [getWeightsR, gcRecTerm, Finset.sum_range_succ, Nat.choose, h0, h1, h2, h3, h4, h5, h6]
      try ring
  · -- poles = 7
    rcases Nat.lt_or_ge i 7 with hi | hi
    · interval_cases i <;>
        simp [getWeightsR, gcRecTerm, Finset.sum_range_succ, Nat.choose] <;>
        try ring_nf <;> try tauto
    · have h0 : ¬ (i = 0) := by omega
      have h1 : 1 ≤ i := by omega
      have h2 : 2 ≤ i := by omega
      have h3 : 3 ≤ i := by omega
      have h4 : 4 ≤ i := by omega
      have h5 : 5 ≤ i := by omega
      have h6 : 6 ≤ i := by omega
      have h7 : 7 ≤ i := by omega
      simp [getWeightsR, gcRecTerm, Finset.sum_range_succ, Nat.choose, h0, h1, h2, h3, h4, h5, h6, h7]
      try ring
  · -- poles = 8
    rcases Nat.lt_or_ge i 8 with hi | hi
    · interval_cases i <;>
        simp [getWeightsR, gcRecTerm, Finset.sum_range_succ, Nat.choose] <;>
        try ring_nf <;> try tauto
    · have h0 : ¬ (i = 0) := by omega
      have h1 : 1 ≤ i := by omega
      have h2 : 2 ≤ i := by omega
      have h3 : 3 ≤ i := by omega
      have h4 : 4 ≤ i := by omega
      have h5 : 5 ≤ i := by omega
      have h6 : 6 ≤ i := by omega
      have h7 : 7 ≤ i := by omega
      have h8 : 8 ≤ i := by omega
      simp [getWeightsR, gcRecTerm, Finset.sum_range_succ, Nat.choose, h0, h1, h2, h3, h4, h5, h6, h7, h8]
      try ring
  · -- poles = 9
    rcases Nat.lt_or_ge i 9 with hi | hi
    · interval_cases i <;>
        simp [getWeightsR, gcRecTerm, Finset.sum_range_succ, Nat.choose] <;>
        try ring_nf <;> try tauto
    · have h0 : ¬ (i = 0) := by omega
      have h1 : 1 ≤ i := by omega
      have h2 : 2 ≤ i := by omega
      have h3 : 3 ≤ i := by omega
      have h4 : 4 ≤ i := by omega
      have h5 : 5 ≤ i := by omega
      have h6 : 6 ≤ i := by omega
      have h7 : 7 ≤ i := by omega
      have h8 : 8 ≤ i := by omega
      have h9 : 9 ≤ i := by omega
      simp [getWeightsR, gcRecTerm, Finset.sum_range_succ, Nat.choose, h0, h1, h2, h3, h4, h5, h6, h7, h8, h9]
      try ring

/-- For indices below 10, `_calculate_filter` returns the input
unchanged (line 111-112). -/
lemma calcFilter_passthrough (alpha : ℚ) (p : ℕ) (x : ℕ → ℚ) (i : ℕ)
    (h : i < 10) : calcFilter alpha p x i = x i := by
  rw [calcFilter.eq_def]
  simp [h]

set_option maxHeartbeats 1000000 in
/-- From index 10 on, `_calculate_filter` satisfies the spec recurrence
(all feedback indices are then non-negative, so no term is omitted). -/
lemma calcFilter_rec (alpha : ℚ) (p : ℕ) (x : ℕ → ℚ)
    (hp1 : 1 ≤ p) (hp9 : p ≤ 9) (i : ℕ) (hi : 10 ≤ i) :
    calcFilter alpha p x i = gcRecRhs alpha p x (calcFilter alpha p x) i := by
  rw [gcRecRhs_eq_range, calcFilter.eq_def]
  have h10 : ¬ (i < 10) := by omega
  interval_cases p
  · -- poles = 1
    have h1 : 1 ≤ i := by omega
    simp [getWeights, m2_map, m3_map, m4_map, m5_map, m6_map, m7_map, m8_map,
      gcRecTerm, Finset.sum_range_succ, Nat.choose, h10, h1]
    try ring
  · -- poles = 2
    have h1 : 1 ≤ i := by omega
    have h2 : 2 ≤ i := by omega
    simp [getWeights, m2_map, m3_map, m4_map, m5_map, m6_map, m7_map, m8_map,
      gcRecTerm, Finset.sum_range_succ, Nat.choose, h10, h1, h2]
    try ring
  · -- poles = 3
    have h1 : 1 ≤ i := by omega
    have h2 : 2 ≤ i := by omega
    have h3 : 3 ≤ i := by omega
    simp [getWeights, m2_map, m3_map, m4_map, m5_map, m6_map, m7_map, m8_map,
      gcRecTerm, Finset.sum_range_succ, Nat.choose, h10, h1, h2, h3]
    try ring
  · -- poles = 4
    have h1 : 1 ≤ i := by omega
    have h2 : 2 ≤ i := by omega
    have h3 : 3 ≤ i := by omega
    have h4 : 4 ≤ i := by omega
    simp [getWeights, m2_map, m3_map, m4_map, m5_map, m6_map, m7_map, m8_map,
      gcRecTerm, Finset.sum_range_succ, Nat.choose, h10, h1, h2, h3, h4]
    try ring
  · -- poles = 5
    have h1 : 1 ≤ i := by omega
    have h2 : 2 ≤ i := by omega
    have h3 : 3 ≤ i := by omega
    have h4 : 4 ≤ i := by omega
    have h5 : 5 ≤ i := by omega
    simp [getWeights, m2_map, m3_map, m4_map, m5_map, m6_map, m7_map, m8_map,
      gcRecTerm, Finset.sum_range_succ, Nat.choose, h10, h1, h2, h3, h4, h5]
    try ring
  · -- poles = 6
    have h1 : 1 ≤ i := by omega
    have h2 : 2 ≤ i := by omega
    have h3 : 3 ≤ i := by omega
    have h4 : 4 ≤ i := by omega
    have h5 : 5 ≤ i := by omega
    have h6 : 6 ≤ i := by omega
    simp [getWeights, m2_map, m3_map, m4_map, m5_map, m6_map, m7_map, m8_map,
      gcRecTerm, Finset.sum_range_succ, Nat.choose, h10, h1, h2, h3, h4, h5, h6]
    try ring
  · -- poles = 7
    have h1 : 1 ≤ i := by omega
    have h2 : 2 ≤ i := by omega
    have h3 : 3 ≤ i := by omega
    have h4 : 4 ≤ i := by omega
    have h5 : 5 ≤ i := by omega
    have h6 : 6 ≤ i := by omega
    have h7 : 7 ≤ i := by omega
    simp [getWeights, m2_map, m3_map, m4_map, m5_map, m6_map, m7_map, m8_map,
      gcRecTerm, Finset.sum_range_succ, Nat.choose, h10, h1, h2, h3, h4, h5, h6, h7]
    try ring
  · -- poles = 8
    have h1 : 1 ≤ i := by omega
    have h2 : 2 ≤ i := by omega
    have h3 : 3 ≤ i := by omega
    have h4 : 4 ≤ i := by omega
    have h5 : 5 ≤ i := by omega
    have h6 : 6 ≤ i := by omega
    have h7 : 7 ≤ i := by omega
    have h8 : 8 ≤ i := by omega
    simp [getWeights, m2_map, m3_map, m4_map, m5_map, m6_map, m7_map, m8_map,
      gcRecTerm, Finset.sum_range_succ, Nat.choose, h10, h1, h2, h3, h4, h5, h6, h7, h8]
    try ring
  · -- poles = 9
    have h1 : 1 ≤ i := by omega
    have h2 : 2 ≤ i := by omega
    have h3 : 3 ≤ i := by omega
    have h4 : 4 ≤ i := by omega
    have h5 : 5 ≤ i := by omega
    have h6 : 6 ≤ i := by omega
    have h7 : 7 ≤ i := by omega
    have h8 : 8 ≤ i := by omega
    have h9 : 9 ≤ i := by omega
    simp [getWeights, m2_map, m3_map, m4_map, m5_map, m6_map, m7_map, m8_map,
      gcRecTerm, Finset.sum_range_succ, Nat.choose, h10, h1, h2, h3, h4, h5, h6, h7, h8, h9]
    try ring

/-- Counterexample to claim C2 as stated: `_calculate_filter` does not
satisfy the recurrence at every index — index 1 of the unit impulse (any
pole count, shown at 1 pole and coefficient `alpha = 1/2`) is returned
as a pass-through copy of the input (value 1), while the recurrence
demands `alpha^p·x[1] + p·(1−alpha)·y[0] = 1/2`. -/
theorem C2_counterexample :
    ¬ SatisfiesGCRec (1 / 2) 1 impulse1 (calcFilter (1 / 2) 1 impulse1) := by
  intro hsat
  have h1 := hsat 1
  rw [calcFilter_passthrough _ _ _ 1 (by omega), gcRecRhs_eq_range] at h1
  rw [Finset.sum_range_one] at h1
  simp only [gcRecTerm] at h1
  rw [calcFilter_passthrough _ _ _ 0 (by omega)] at h1
  norm_num [impulse1] at h1

/-- Claim C2 as amended: the root-variant `_filter_function` satisfies
the spec recurrence (terms with negative index omitted) at every index;
the indicators-variant `_calculate_filter` instead returns indices 0–9
as pass-through copies of the input and satisfies the recurrence only
from index 10 on (where no term is omitted). -/
theorem C2_amended_recurrence (alpha : ℚ) (p : ℕ) (x : ℕ → ℚ)
    (hp1 : 1 ≤ p) (hp9 : p ≤ 9) :
    SatisfiesGCRec alpha p x (filterFunction alpha p x) ∧
    (∀ i, i < 10 → calcFilter alpha p x i = x i) ∧
    (∀ i, 10 ≤ i → calcFilter alpha p x i =
      gcRecRhs alpha p x (calcFilter alpha p x) i) :=
  ⟨filterFunction_satisfies alpha p x hp1 hp9,
   fun i h => calcFilter_passthrough alpha p x i h,
   fun i h => calcFilter_rec alpha p x hp1 hp9 i h⟩

/-- Witness for C2 (amended), at `alpha = 1/2`, 2 poles, the unit
impulse: the root variant satisfies the recurrence at index 3, and the
indicators variant passes index 5 through. -/
theorem C2_witness :
    filterFunction (1 / 2) 2 impulse1 3 =
      gcRecRhs (1 / 2) 2 impulse1 (filterFunction (1 / 2) 2 impulse1) 3 ∧
    calcFilter (1 / 2) 2 impulse1 5 = impulse1 5 :=
  ⟨(C2_amended_recurrence (1 / 2) 2 impulse1 (by decide) (by decide)).1 3,
   (C2_amended_recurrence (1 / 2) 2 impulse1 (by decide) (by decide)).2.1 5 (by decide)⟩

/-- The root-variant filter at 1 pole is exactly the direct single-pole
computation, by induction on the index. -/
lemma filterFunction_one_eq_singlePole (alpha : ℚ) (x : ℕ → ℚ) (i : ℕ) :
    filterFunction alpha 1 x i = singlePole alpha x i := by
  induction i with
  | zero =>
    rw [filterFunction.eq_def]
    simp [singlePole]
  | succ n ih =>
    rw [filterFunction.eq_def]
    simp only [Nat.succ_ne_zero, dite_false, getWeightsR, Nat.add_sub_cancel, ih]
    have : ¬ (2 ≤ 1) := by omega
    simp [singlePole, this]
    try ring

/-- From index 10 on, `_calculate_filter` at 1 pole performs the direct
single-pole step on its own (pass-through-seeded) history. -/
lemma calcFilter_one_rec (alpha : ℚ) (x : ℕ → ℚ) (i : ℕ) (hi : 10 ≤ i) :
    calcFilter alpha 1 x i =
      alpha * x i + (1 - alpha) * calcFilter alpha 1 x (i - 1) := by
  rw [calcFilter.eq_def]
  have h10 : ¬ (i < 10) := by omega
  have : ¬ (2 ≤ 1) := by omega
  simp [h10, this, getWeights, m2_map, m3_map, m4_map, m5_map, m6_map, m7_map, m8_map]
  try ring

/-- Counterexample to claim C8 as stated: at 1 pole and `alpha = 1/3`,
`_calculate_filter` on the unit impulse returns 1 at index 1 (a
pass-through copy), while the direct single-pole computation returns
`1/3`; so the two cited filter implementations do not both match the
direct computation at every index. -/
theorem C8_counterexample :
    calcFilter (1 / 3) 1 impulse1 1 ≠ singlePole (1 / 3) impulse1 1 := by
  rw [calcFilter_passthrough _ _ _ 1 (by omega)]
  norm_num [singlePole, impulse1]

/-- Claim C8 as amended: at pole count 1 the root-variant
`_filter_function` equals the direct single-pole recurrence
`y[i] = α·x[i] + (1−α)·y[i−1]` (with `y[−1]` absent at index 0) at every
index; the indicators-variant `_calculate_filter` instead passes indices
0–9 through and applies the single-pole step only from index 10 on, so
it differs from the direct computation on early indices. -/
theorem C8_amended_single_pole (alpha : ℚ) (x : ℕ → ℚ) :
    (∀ i, filterFunction alpha 1 x i = singlePole alpha x i) ∧
    (∀ i, i < 10 → calcFilter alpha 1 x i = x i) ∧
    (∀ i, 10 ≤ i → calcFilter alpha 1 x i =
      alpha * x i + (1 - alpha) * calcFilter alpha 1 x (i - 1)) :=
  ⟨fun i => filterFunction_one_eq_singlePole alpha x i,
   fun i h => calcFilter_passthrough alpha 1 x i h,
   fun i h => calcFilter_one_rec alpha x i h⟩

/-- Witness for C8 (amended) at `alpha = 1/3`: the root variant equals
the direct computation at index 2, and the indicators variant passes
index 4 through. -/
theorem C8_witness :
    filterFunction (1 / 3) 1 impulse1 2 = singlePole (1 / 3) impulse1 2 ∧
    calcFilter (1 / 3) 1 impulse1 4 = impulse1 4 :=
  ⟨(C8_amended_single_pole (1 / 3) impulse1).1 2,
   (C8_amended_single_pole (1 / 3) impulse1).2.1 4 (by decide)⟩

/-- Band ordering at an index is exactly non-negativity of the filtered
true range times the multiplier there. -/
lemma band_order_iff (gc : GaussianChannel) (n : ℕ) (high low close : ℕ → ℚ)
    (i : ℕ) :
    (channelLower gc n high low close i ≤ channelFilt gc n high low close i ∧
     channelFilt gc n high low close i ≤ channelUpper gc n high low close i) ↔
    0 ≤ channelFiltTr gc n high low close i * gc.multiplier := by
  unfold channelLower channelUpper
  constructor
  · rintro ⟨h1, h2⟩
    linarith
  · intro h
    constructor <;> linarith

/-- The true range is non-negative for well-formed candles. -/
lemma trueRange_nonneg (high low close : ℕ → ℚ)
    (hvalid : ∀ j, low j ≤ high j) : ∀ i, 0 ≤ trueRange high low close i := by
  intro i
  cases i with
  | zero =>
    have := hvalid 0
    simp only [trueRange]
    linarith
  | succ n =>
    calc (0 : ℚ) ≤ |high (n + 1) - close n| := abs_nonneg _
      _ ≤ max |high (n + 1) - close n| |low (n + 1) - close n| := le_max_left _ _
      _ ≤ trueRange high low close (n + 1) := by
          simp only [trueRange]
          exact le_max_right _ _

/-- Claim C7 as amended: `lower_band ≤ centerline ≤ upper_band` holds at
an index whenever the filtered true range there (times a non-negative
multiplier) is non-negative; with both modes off and well-formed candles
this covers every pass-through index `i < 10`, but it is not guaranteed
at later indices, where the warm-up lets the filtered true range go
negative. -/
theorem C7_amended_band_order (gc : GaussianChannel) (n : ℕ)
    (high low close : ℕ → ℚ) (i : ℕ) :
    (0 ≤ gc.multiplier → 0 ≤ channelFiltTr gc n high low close i →
      channelLower gc n high low close i ≤ channelFilt gc n high low close i ∧
      channelFilt gc n high low close i ≤ channelUpper gc n high low close i) ∧
    (gc.reduced_lag = false → gc.fast_response = false → 0 ≤ gc.multiplier →
      (∀ j, low j ≤ high j) → i < 10 →
      channelLower gc n high low close i ≤ channelFilt gc n high low close i ∧
      channelFilt gc n high low close i ≤ channelUpper gc n high low close i) := by
  constructor
  · intro hm hf
    exact (band_order_iff gc n high low close i).2 (mul_nonneg hf hm)
  · intro hrl hfr hm hvalid hi
    apply (band_order_iff gc n high low close i).2
    apply mul_nonneg _ hm
    have htd : trdata gc n high low close = trueRange high low close := by
      simp [trdata, hrl]
    simp only [channelFiltTr, hfr, Bool.false_eq_true, if_false, htd]
    rw [calcFilter_passthrough _ _ _ i hi]
    exact trueRange_nonneg high low close hvalid i

/-- Witness for C7 (amended): the example configuration at index 0 has
ordered bands. -/
theorem C7_witness :
    channelLower exampleGC 11 exampleHigh exampleLow exampleClose 0 ≤
      channelFilt exampleGC 11 exampleHigh exampleLow exampleClose 0 ∧
    channelFilt exampleGC 11 exampleHigh exampleLow exampleClose 0 ≤
      channelUpper exampleGC 11 exampleHigh exampleLow exampleClose 0 :=
  (C7_amended_band_order exampleGC 11 exampleHigh exampleLow exampleClose 0).2
    (by norm_num [exampleGC, mkGaussianChannel])
    (by norm_num [exampleGC, mkGaussianChannel])
    (by norm_num [exampleGC, mkGaussianChannel])
    (fun j => by by_cases hj : j = 8 <;> simp [exampleLow, exampleHigh, hj] <;> norm_num)
    (by norm_num)

/-- Counterexample to claim C7 as stated: with 2 poles (coefficient
`alpha = 1/2`), multiplier 1.414 and well-formed candles that are flat
except for a range spike at index 8, the filtered true range at index 10
is negative and `upper_band < centerline` there. -/
theorem C7_counterexample :
    channelUpper exampleGC 11 exampleHigh exampleLow exampleClose 10 <
      channelFilt exampleGC 11 exampleHigh exampleLow exampleClose 10 := by
  have halpha : exampleGC.alpha = 1 / 2 := by
    norm_num [exampleGC, mkGaussianChannel]
  have hpoles : exampleGC.poles = 2 := by
    norm_num [exampleGC, mkGaussianChannel]
    decide
  have hfast : exampleGC.fast_response = false := by
    norm_num [exampleGC, mkGaussianChannel]
  have hm : exampleGC.multiplier = 1414 / 1000 := by
    norm_num [exampleGC, mkGaussianChannel]
  have hsrc : srcdata exampleGC 11 exampleHigh exampleLow exampleClose =
      hlc3 exampleHigh exampleLow exampleClose := by
    simp [srcdata, exampleGC, mkGaussianChannel]
  have htrd : trdata exampleGC 11 exampleHigh exampleLow exampleClose =
      trueRange exampleHigh exampleLow exampleClose := by
    simp [trdata, exampleGC, mkGaussianChannel]
  have hhlc8 : hlc3 exampleHigh exampleLow exampleClose 8 = 10 := by
    norm_num [hlc3, exampleHigh, exampleLow, exampleClose]
  have hhlc9 : hlc3 exampleHigh exampleLow exampleClose 9 = 10 := by
    norm_num [hlc3, exampleHigh, exampleLow, exampleClose]
  have hhlc10 : hlc3 exampleHigh exampleLow exampleClose 10 = 10 := by
    norm_num [hlc3, exampleHigh, exampleLow, exampleClose]
  have htr8 : trueRange exampleHigh exampleLow exampleClose 8 = 2 := by
    have h8 : (8 : ℕ) = 7 + 1 := by norm_num
    rw [h8]
    simp only [trueRange]
    norm_num [exampleHigh, exampleLow, exampleClose]
  have htr9 : trueRange exampleHigh exampleLow exampleClose 9 = 0 := by
    have h9 : (9 : ℕ) = 8 + 1 := by norm_num
    rw [h9]
    simp only [trueRange]
    norm_num [exampleHigh, exampleLow, exampleClose]
  have htr10 : trueRange exampleHigh exampleLow exampleClose 10 = 0 := by
    have h10 : (10 : ℕ) = 9 + 1 := by norm_num
    rw [h10]
    simp only [trueRange]
    norm_num [exampleHigh, exampleLow, exampleClose]
  have hf : channelFilt exampleGC 11 exampleHigh exampleLow exampleClose 10 = 10 := by
    simp only [channelFilt, hfast, Bool.false_eq_true, if_false, halpha, hpoles, hsrc]
    rw [calcFilter.eq_def]
    norm_num [getWeights, m2_map, calcFilter_passthrough, hhlc8, hhlc9, hhlc10]
  have hftr : channelFiltTr exampleGC 11 exampleHigh exampleLow exampleClose 10
      = -(1 / 2) := by
    simp only [channelFiltTr, hfast, Bool.false_eq_true, if_false, halpha, hpoles, htrd]
    rw [calcFilter.eq_def]
    norm_num [getWeights, m2_map, calcFilter_passthrough, htr8, htr9, htr10]
  simp only [channelUpper, hf, hftr, hm]
  norm_num
